import Mathlib

/-!
Verification development for the renterd persistence core (package `stores`).

Shallow embedding conventions:
* `consensus.PublicKey`, gob-encoded settings blobs and `modules.ConsensusChangeID`
  are opaque byte blobs in Go; they are modelled as `Nat` tokens.
* `time.Time` timestamps are modelled by their `UnixNano` value as `Int`,
  and `time.Duration` (int64 nanoseconds) as `Int`.
* `types.BlockHeight` is a `uint64`; arithmetic on it is taken modulo `2 ^ 64`.
* The SQL database reachable through gorm is modelled as an explicit record of
  tables (`DB`).  A gorm transaction commits all of its writes or none of them;
  transactional operations therefore either produce the fully updated `DB` or
  leave the previous one in place, with an explicit `commitOk` flag standing in
  for success or failure of the commit.
* `float64` interaction counters only ever receive integral increments in this
  code, so they are modelled as `Nat`.
* gorm `Model` bookkeeping columns (`ID`, `CreatedAt`, `UpdatedAt`) play no role
  in any claim and are omitted from row types.
-/

namespace Renterd

/-- The modulus of Go `uint64` arithmetic (`2 ^ 64`). -/
def uint64Mod : Nat := 18446744073709551616

/-- Embeds `hostdb.Announcement` paired with its host key, i.e. the
`announcement` struct buffered by the store (`part_001`, lines 114-118):
host public key, announcement timestamp, announced net address, and the chain
index (block height and block id) the announcement was found at. -/
structure Announcement where
  hostKey : Nat
  timestamp : Int
  netAddress : String
  indexHeight : Nat
  indexID : String
deriving Repr, DecidableEq

/-- A block as seen by the announcement scanner: its id, its timestamp, and the
list of (host key, net address) pairs of the valid host announcements contained
in its transactions. -/
structure Block where
  id : String
  timestamp : Int
  hostAnnouncements : List (Nat × String)
deriving Repr, DecidableEq

/-- Modelled from the spec: `hostdb.ForEachAnnouncement` lives in the `hostdb`
package, which is not part of the provided sources.  Per spec section 4.1 it
scans a block for host announcements at the given height, producing one
`{hostKey, announcement}` pair per announcement found, the announcement
carrying the block timestamp, the announced address, and a chain index made of
the given height and the block id. -/
def forEachAnnouncement (b : Block) (height : Nat) : List Announcement :=
  b.hostAnnouncements.map fun p =>
    { hostKey := p.1, timestamp := b.timestamp, netAddress := p.2,
      indexHeight := height, indexID := b.id }

/-- Embeds `modules.ConsensusChange` as consumed by `ProcessConsensusChange`:
an opaque change id, the initial height, and the ordered lists of reverted and
applied blocks. -/
structure ConsensusChange where
  id : Nat
  initialHeight : Nat
  revertedBlocks : List Block
  appliedBlocks : List Block
deriving Repr, DecidableEq

/-- One `height--` step on a `uint64` height (wraps modulo `2 ^ 64`). -/
def decHeight (h : Nat) : Nat := (h + (uint64Mod - 1)) % uint64Mod

/-- One `height++` step on a `uint64` height (wraps modulo `2 ^ 64`). -/
def incHeight (h : Nat) : Nat := (h + 1) % uint64Mod

/-- The height the applied-block loop of `ProcessConsensusChange` starts from:
`cc.InitialHeight()` decremented once per reverted block (`part_001`,
lines 325-328). -/
def startHeight (cc : ConsensusChange) : Nat :=
  cc.revertedBlocks.foldl (fun h _ => decHeight h) cc.initialHeight

/-- The applied-block loop of `ProcessConsensusChange` (`part_001`,
lines 331-340): each applied block is scanned for announcements at the current
height, and the height is incremented after each block. -/
def processApplied : List Block → Nat → List Announcement
  | [], _ => []
  | b :: bs, height => forEachAnnouncement b height ++ processApplied bs (incHeight height)

/-- The announcements a single consensus change contributes to the in-memory
batch. -/
def newAnnouncements (cc : ConsensusChange) : List Announcement :=
  processApplied cc.appliedBlocks (startHeight cc)

/-- Embeds the `dbHost` row of the `hosts` table (`part_001`, lines 37-55). -/
structure DbHost where
  publicKey : Nat
  settings : Nat
  totalScans : Nat
  lastScan : Int
  lastScanSuccess : Bool
  secondToLastScanSuccess : Bool
  uptime : Int
  downtime : Int
  successfulInteractions : Nat
  failedInteractions : Nat
  lastAnnouncement : Int
  netAddress : String
deriving Repr, DecidableEq

/-- Embeds the `dbAnnouncement` row of the `host_announcements` table
(`part_001`, lines 105-112). -/
structure DbAnnouncement where
  hostKey : Nat
  blockHeight : Nat
  blockID : String
  netAddress : String
deriving Repr, DecidableEq

/-- Embeds the `dbInteraction` row of the `host_interactions` table
(`part_001`, lines 60-67); the opaque JSON result payload is modelled as
`Option Nat`: `some s` when it decodes to a `hostdb.ScanResult` whose settings
blob is `s`, `none` when it does not decode. -/
structure DbInteraction where
  result : Option Nat
  success : Bool
  timestamp : Int
  type : String
deriving Repr, DecidableEq

/-- Embeds the `dbAutopilot` row of the `autopilots` table
(`autopilot.go`, lines 14-20). -/
structure DbAutopilot where
  identifier : String
  config : Nat
  currentPeriod : Nat
deriving Repr, DecidableEq

/-- The persisted database: the tables touched by the claims, plus the CCID
value of the unique `consensus_infos` row (the row exists from store
initialisation on, so only its `CCID` column is modelled). -/
structure DB where
  hosts : List DbHost
  announcements : List DbAnnouncement
  interactions : List DbInteraction
  ccid : Nat
  autopilots : List DbAutopilot
deriving Repr, DecidableEq

/-- The host row built from an announcement by `insertAnnouncements`
(`part_001`, lines 377-381): only public key, last announcement and net
address are set, every other column is the zero value. -/
def hostFromAnnouncement (a : Announcement) : DbHost :=
  { publicKey := a.hostKey, settings := 0, totalScans := 0, lastScan := 0,
    lastScanSuccess := false, secondToLastScanSuccess := false,
    uptime := 0, downtime := 0, successfulInteractions := 0,
    failedInteractions := 0, lastAnnouncement := a.timestamp,
    netAddress := a.netAddress }

/-- One step of the conflict-aware host insert of `insertAnnouncements`
(`part_001`, lines 394-397): `ON CONFLICT (public_key) DO UPDATE` assigning
only the `last_announcement` and `net_address` columns; a row with a fresh key
is appended as built by `hostFromAnnouncement`. -/
def upsertHostFromAnnouncement (hosts : List DbHost) (a : Announcement) : List DbHost :=
  if hosts.any (fun h => h.publicKey == a.hostKey) then
    hosts.map fun h =>
      if h.publicKey == a.hostKey then
        { h with lastAnnouncement := a.timestamp, netAddress := a.netAddress }
      else h
  else
    hosts ++ [hostFromAnnouncement a]

/-- Embeds `insertAnnouncements` (`part_001`, lines 373-398): append one
`dbAnnouncement` row per announcement, then upsert the corresponding host
rows. -/
def insertAnnouncements (db : DB) (anns : List Announcement) : DB :=
  { db with
    announcements := db.announcements ++ anns.map (fun a =>
      { hostKey := a.hostKey, blockHeight := a.indexHeight,
        blockID := a.indexID, netAddress := a.netAddress }),
    hosts := anns.foldl upsertHostFromAnnouncement db.hosts }

/-- Embeds `updateCCID` (`part_001`, lines 365-371): update the `CCID` column
of the unique `consensus_infos` row. -/
def updateCCID (db : DB) (newCCID : Nat) : DB := { db with ccid := newCCID }

/-- The body of the flush transaction of `ProcessConsensusChange`
(`part_001`, lines 347-354): insert the buffered announcements when the buffer
is non-empty, then update the checkpoint; all inside one transaction. -/
def flushTx (db : DB) (anns : List Announcement) (ccid : Nat) : DB :=
  updateCCID (if 0 < anns.length then insertAnnouncements db anns else db) ccid

/-- Embeds the `SQLStore` fields relevant to the hostdb (`part_000`,
lines 100-108): the persisted `DB` plus the in-memory announcement batch
state. -/
structure SQLStore where
  db : DB
  lastAnnouncementSave : Int
  persistInterval : Int
  unappliedAnnouncements : List Announcement
  unappliedCCID : Nat
deriving Repr, DecidableEq

/-- `announcementBatchSoftLimit` (`part_001`, line 23). -/
def announcementBatchSoftLimit : Nat := 1000

/-- Embeds `ProcessConsensusChange` (`part_001`, lines 324-363).  `now` is the
wall-clock instant of the call (so `time.Since(lastAnnouncementSave)` is
`now - lastAnnouncementSave`) and `commitOk` tells whether the flush
transaction, if attempted, commits: a failed transaction is rolled back by
gorm and leaves the persisted `DB` untouched.  Note that after a flush attempt
the code truncates the buffer and resets the save time regardless of the
commit outcome. -/
def processConsensusChange (now : Int) (commitOk : Bool) (s : SQLStore)
    (cc : ConsensusChange) : SQLStore :=
  let buf := s.unappliedAnnouncements ++ newAnnouncements cc
  let s1 : SQLStore := { s with unappliedAnnouncements := buf, unappliedCCID := cc.id }
  if s1.persistInterval < now - s1.lastAnnouncementSave ∨
      announcementBatchSoftLimit ≤ buf.length then
    { s1 with
      db := if commitOk then flushTx s1.db buf cc.id else s1.db,
      unappliedAnnouncements := [],
      lastAnnouncementSave := now }
  else s1

/-- Embeds `hostdb.Interaction` as consumed by `RecordHostInteractions`.  The
opaque JSON result payload is modelled as in `DbInteraction`: `some s` when it
decodes to a `hostdb.ScanResult` whose (gob-encoded, converted) settings blob
is `s`, `none` when `json.Unmarshal` would fail on it. -/
structure Interaction where
  result : Option Nat
  success : Bool
  timestamp : Int
  type : String
deriving Repr, DecidableEq

/-- `hostdb.InteractionTypeScan`, the type tag of scan interactions (from the
`hostdb` package, not in the provided sources; named by `part_001`,
line 282). -/
def interactionTypeScan : String := "scan"

/-- The data of one scan UPDATE statement appended to `scanQuery` by
`RecordHostInteractions` (`part_001`, lines 293-300): the interaction outcome,
its `UnixNano` timestamp, and the settings blob written to the `settings`
column (`gobEncode(convertHostSettings(sr.Settings))`; `sr` stays the zero
value when the scan failed, modelled as blob `0`). -/
structure ScanUpdate where
  success : Bool
  timestamp : Int
  settings : Nat
deriving Repr, DecidableEq

/-- Builds the `ScanUpdate` of a single scan interaction; for a successful
scan the result payload must unmarshal into a `hostdb.ScanResult`, otherwise
`RecordHostInteractions` returns the unmarshal error before opening the
transaction (`part_001`, lines 287-292). -/
def scanUpdateOf (i : Interaction) : Except String ScanUpdate :=
  if i.success then
    match i.result with
    | some stg => .ok { success := i.success, timestamp := i.timestamp, settings := stg }
    | none => .error "unmarshal error"
  else .ok { success := i.success, timestamp := i.timestamp, settings := 0 }

/-- The first pass of `RecordHostInteractions` over the interactions
(`part_001`, lines 269-302), collecting one `ScanUpdate` per interaction of
type scan, in order, and failing on the first successful scan whose result
does not unmarshal. -/
def buildScanUpdates : List Interaction → Except String (List ScanUpdate)
  | [] => .ok []
  | i :: rest =>
    if i.type == interactionTypeScan then
      match scanUpdateOf i with
      | .error e => .error e
      | .ok u =>
        match buildScanUpdates rest with
        | .error e => .error e
        | .ok us => .ok (u :: us)
    else buildScanUpdates rest

/-- The effect of one scan UPDATE statement on one `hosts` row (`part_001`,
lines 293-299).  The statement carries no WHERE clause, so it is applied to
every row of the table; all SET expressions read the old row values:
`total_scans = total_scans + 1`,
`second_to_last_scan_success = last_scan_success`,
`last_scan_success = <outcome>`,
`<uptime|downtime> = CASE WHEN last_scan == 0 THEN last_scan ELSE <ts> - last_scan END`
(the column being `uptime` for a successful scan and `downtime` for a failed
one), `last_scan = <ts>`, `settings = <blob>`. -/
def applyScanUpdate (u : ScanUpdate) (h : DbHost) : DbHost :=
  { h with
    totalScans := h.totalScans + 1,
    secondToLastScanSuccess := h.lastScanSuccess,
    lastScanSuccess := u.success,
    uptime := if u.success then
        (if h.lastScan = 0 then h.lastScan else u.timestamp - h.lastScan)
      else h.uptime,
    downtime := if u.success then h.downtime
      else (if h.lastScan = 0 then h.lastScan else u.timestamp - h.lastScan),
    lastScan := u.timestamp,
    settings := u.settings }

/-- The interaction-counter UPDATE of `RecordHostInteractions` (`part_001`,
lines 310-314): adds the successful and failed tallies to the rows whose
`public_key` matches the given host key. -/
def applyCounterUpdate (hostKey : Nat) (successful failed : Nat)
    (hosts : List DbHost) : List DbHost :=
  hosts.map fun h =>
    if h.publicKey == hostKey then
      { h with successfulInteractions := h.successfulInteractions + successful,
               failedInteractions := h.failedInteractions + failed }
    else h

/-- Embeds `RecordHostInteractions` (`part_001`, lines 263-321): build the
interaction rows and the scan updates (failing early on a bad scan payload),
then, in one transaction, insert the interaction rows and execute the counter
UPDATE (WHERE public_key = hostKey) followed by the concatenated scan UPDATE
statements in interaction order. -/
def recordHostInteractions (db : DB) (hostKey : Nat)
    (interactions : List Interaction) : Except String DB :=
  match buildScanUpdates interactions with
  | .error e => .error e
  | .ok updates =>
    let rows : List DbInteraction := interactions.map fun i =>
      { result := i.result, success := i.success, timestamp := i.timestamp, type := i.type }
    let successful := (interactions.filter (fun i => i.success)).length
    let failed := (interactions.filter (fun i => !i.success)).length
    .ok { db with
      interactions := db.interactions ++ rows,
      hosts := updates.foldl (fun hs u => hs.map (applyScanUpdate u))
        (applyCounterUpdate hostKey successful failed db.hosts) }

/-- Embeds the `hostdb.Host` value produced by `dbHost.convert` (`part_001`,
lines 191-218): `lastScan` becomes `time.Unix(0, h.LastScan)` when
`h.LastScan > 0` and the zero time otherwise, and a zero settings blob becomes
a nil settings pointer. -/
structure HostdbHost where
  netAddress : String
  publicKey : Nat
  totalScans : Nat
  lastScan : Int
  lastScanSuccess : Bool
  secondToLastScanSuccess : Bool
  uptime : Int
  downtime : Int
  successfulInteractions : Nat
  failedInteractions : Nat
  settings : Option Nat
deriving Repr, DecidableEq

/-- Embeds `dbHost.convert` (`part_001`, lines 191-218). -/
def convertHost (h : DbHost) : HostdbHost :=
  { netAddress := h.netAddress, publicKey := h.publicKey,
    totalScans := h.totalScans,
    lastScan := if 0 < h.lastScan then h.lastScan else 0,
    lastScanSuccess := h.lastScanSuccess,
    secondToLastScanSuccess := h.secondToLastScanSuccess,
    uptime := h.uptime, downtime := h.downtime,
    successfulInteractions := h.successfulInteractions,
    failedInteractions := h.failedInteractions,
    settings := if h.settings = 0 then none else some h.settings }

set_option linter.unusedVariables false in
/-- Embeds `Hosts` (`part_001`, lines 233-252): the query selects rows from
the `hosts` table with `LIMIT max` and converts them; no condition mentions
the `notSince` parameter, which the function body never reads. -/
def Hosts (db : DB) (notSince : Int) (max : Nat) : List HostdbHost :=
  (db.hosts.take max).map convertHost

/-- Modelled from the spec: `api.AutopilotConfig` and its `Validate` method
are not in the provided sources.  Per spec sections 6 and 7 the configuration
is an opaque blob that either passes or fails schema validation, modelled as
the blob plus a validity flag checked by `validate`. -/
structure AutopilotConfig where
  blob : Nat
  valid : Bool
deriving Repr, DecidableEq

/-- Modelled from the spec: `Validate` fails exactly on a malformed
configuration. -/
def AutopilotConfig.validate (c : AutopilotConfig) : Except String Unit :=
  if c.valid then .ok () else .error "invalid autopilot config"

/-- Embeds `api.Autopilot` as consumed by `UpdateAutopilot`. -/
structure Autopilot where
  id : String
  config : AutopilotConfig
  currentPeriod : Nat
deriving Repr, DecidableEq

/-- The `ON CONFLICT (identifier) DO UPDATE ALL` upsert of `UpdateAutopilot`
(`autopilot.go`, lines 88-95): a row with a matching identifier is replaced
wholesale, a fresh identifier appends a row. -/
def upsertAutopilotRow (rows : List DbAutopilot) (row : DbAutopilot) : List DbAutopilot :=
  if rows.any (fun r => r.identifier == row.identifier) then
    rows.map fun r => if r.identifier == row.identifier then row else r
  else rows ++ [row]

/-- Embeds `UpdateAutopilot` (`autopilot.go`, lines 72-96): reject an empty
identifier, then reject a configuration failing validation, and only then
marshal the configuration and upsert the row keyed by the identifier. -/
def UpdateAutopilot (db : DB) (ap : Autopilot) : Except String DB :=
  if ap.id = "" then .error "autopilot ID cannot be empty"
  else
    match ap.config.validate with
    | .error e => .error e
    | .ok _ =>
      let row : DbAutopilot := ⟨ap.id, ap.config.blob, ap.currentPeriod⟩
      .ok { db with autopilots := upsertAutopilotRow db.autopilots row }

/-- The view a caller of `UpdateAutopilot` has of the store: an error return
leaves the previous database in place (nothing was committed). -/
def updateAutopilotStore (db : DB) (ap : Autopilot) : Option String × DB :=
  match UpdateAutopilot db ap with
  | .ok db2 => (none, db2)
  | .error e => (some e, db)

/-- The hosts table of a `recordHostInteractions` outcome; an error outcome
committed nothing, so it exposes no table. -/
def hostsOf (r : Except String DB) : List DbHost :=
  match r with
  | .ok db => db.hosts
  | .error _ => []

/-- Whether a `recordHostInteractions` outcome committed. -/
def resultOk (r : Except String DB) : Bool :=
  match r with
  | .ok _ => true
  | .error _ => false

/-- Concatenation of the announcement lists produced for an indexed list of
blocks; the reference shape in which the height-attribution property is
stated. -/
def concatMapAnn (f : Nat × Block → List Announcement) :
    List (Nat × Block) → List Announcement
  | [] => []
  | p :: ps => f p ++ concatMapAnn f ps

/-- An empty database, used by the concrete example inputs below. -/
def emptyDB : DB :=
  { hosts := [], announcements := [], interactions := [], ccid := 0, autopilots := [] }

/-- Example consensus change: one reverted block, two applied blocks each
carrying one announcement, starting from initial height 10. -/
def exCC : ConsensusChange :=
  { id := 9, initialHeight := 10,
    revertedBlocks := [{ id := "r0", timestamp := 50, hostAnnouncements := [] }],
    appliedBlocks :=
      [{ id := "b0", timestamp := 60, hostAnnouncements := [(1, "addr1")] },
       { id := "b1", timestamp := 70, hostAnnouncements := [(2, "addr2")] }] }

/-- Example store holding one buffered announcement, last saved at instant 0
with a persist interval of 5. -/
def exStore : SQLStore :=
  { db := emptyDB, lastAnnouncementSave := 0, persistInterval := 5,
    unappliedAnnouncements :=
      [{ hostKey := 3, timestamp := 40, netAddress := "old", indexHeight := 8, indexID := "a" }],
    unappliedCCID := 4 }

/-- Example host row with a prior failed scan at instant 10 and non-zero
uptime and downtime accumulators. -/
def exHost : DbHost :=
  { publicKey := 1, settings := 0, totalScans := 3, lastScan := 10,
    lastScanSuccess := false, secondToLastScanSuccess := true,
    uptime := 5, downtime := 7, successfulInteractions := 2,
    failedInteractions := 1, lastAnnouncement := 0, netAddress := "x" }

/-- Example database holding only `exHost`. -/
def exDB1 : DB := { emptyDB with hosts := [exHost] }

/-- Example successful scan interaction at instant 14 whose payload decodes to
settings blob 42. -/
def exScan : Interaction :=
  { result := some 42, success := true, timestamp := 14, type := "scan" }

/-- The hosts table after recording `exScan` for host key 1 against
`exDB1`. -/
def exScanResult : List DbHost := hostsOf (recordHostInteractions exDB1 1 [exScan])

/-- Example host row that was never scanned and never interacted with. -/
def exFreshHost : DbHost :=
  { publicKey := 5, settings := 0, totalScans := 0, lastScan := 0,
    lastScanSuccess := false, secondToLastScanSuccess := false,
    uptime := 0, downtime := 0, successfulInteractions := 0,
    failedInteractions := 0, lastAnnouncement := 0, netAddress := "y" }

/-- Example database holding two hosts: `exHost` (key 1) and `exFreshHost`
(key 5). -/
def exDB2 : DB := { emptyDB with hosts := [exHost, exFreshHost] }

/-- Example announcement for host key 1 at height 12. -/
def exAnn : Announcement :=
  { hostKey := 1, timestamp := 90, netAddress := "new-addr", indexHeight := 12, indexID := "b9" }

/-- Example database whose single host was last scanned at instant 20. -/
def exDB9 : DB :=
  { emptyDB with hosts := [{ exHost with lastScan := 20 }] }

/-- Example autopilot update with an empty identifier. -/
def exApEmptyID : Autopilot :=
  { id := "", config := { blob := 1, valid := true }, currentPeriod := 0 }

/-- Example autopilot update whose configuration fails validation. -/
def exApInvalid : Autopilot :=
  { id := "ap", config := { blob := 1, valid := false }, currentPeriod := 0 }

/-- Example valid autopilot update. -/
def exApValid : Autopilot :=
  { id := "ap", config := { blob := 2, valid := true }, currentPeriod := 3 }

/-- First change of the example call sequence for the deferred-flush
property: two consensus changes arriving at instants 1 and 2, each well under
the persist interval and contributing one announcement. -/
def exCCa : ConsensusChange :=
  { id := 21, initialHeight := 10, revertedBlocks := [],
    appliedBlocks := [{ id := "c0", timestamp := 55, hostAnnouncements := [(6, "a6")] }] }

/-- Second change of the example call sequence. -/
def exCCb : ConsensusChange :=
  { id := 22, initialHeight := 11, revertedBlocks := [],
    appliedBlocks := [{ id := "c1", timestamp := 56, hostAnnouncements := [(7, "a7")] }] }

/-- The example call sequence itself. -/
def exCalls : List (Int × Bool × ConsensusChange) :=
  [(1, true, exCCa), (2, true, exCCb)]

/-- A sequence of `ProcessConsensusChange` calls, each given as
(wall-clock instant, commit outcome, consensus change). -/
def processSeq (s : SQLStore) : List (Int × Bool × ConsensusChange) → SQLStore
  | [] => s
  | c :: rest => processSeq (processConsensusChange c.1 c.2.1 s c.2.2) rest

/-- The deferred-flush side condition of one call, in the words of the claim:
the elapsed time since the last save stays below the persist interval and the
buffered count (after appending the announcements of this change) stays below
the batch soft limit. -/
def noFlushCall (s : SQLStore) (c : Int × Bool × ConsensusChange) : Bool :=
  decide (c.1 - s.lastAnnouncementSave < s.persistInterval) &&
  decide ((s.unappliedAnnouncements ++ newAnnouncements c.2.2).length < announcementBatchSoftLimit)

/-- The deferred-flush side condition along a whole call sequence. -/
def noFlushSeq : SQLStore → List (Int × Bool × ConsensusChange) → Bool
  | _, [] => true
  | s, c :: rest =>
    noFlushCall s c && noFlushSeq (processConsensusChange c.1 c.2.1 s c.2.2) rest

/-- Example failed scan interaction at instant 30 with an undecodable
payload (a failed scan's payload is never unmarshalled). -/
def exScanFail : Interaction :=
  { result := none, success := false, timestamp := 30, type := "scan" }

@[simp]
lemma concatMapAnn_nil (f : Nat × Block → List Announcement) :
    concatMapAnn f [] = [] := rfl

@[simp]
lemma concatMapAnn_cons (f : Nat × Block → List Announcement) (p : Nat × Block)
    (ps : List (Nat × Block)) :
    concatMapAnn f (p :: ps) = f p ++ concatMapAnn f ps := rfl

lemma concatMapAnn_map (f : Nat × Block → List Announcement)
    (g : Nat × Block → Nat × Block) :
    ∀ l : List (Nat × Block), concatMapAnn f (l.map g) = concatMapAnn (fun p => f (g p)) l
  | [] => rfl
  | p :: ps => by simp [concatMapAnn_map f g ps]

lemma concatMapAnn_congr {f g : Nat × Block → List Announcement}
    (h : ∀ p, f p = g p) : ∀ l, concatMapAnn f l = concatMapAnn g l
  | [] => rfl
  | p :: ps => by simp [h p, concatMapAnn_congr h ps]

lemma decHeight_eq (h : Nat) (h1 : 1 ≤ h) (h2 : h < uint64Mod) :
    decHeight h = h - 1 := by
  simp only [decHeight, uint64Mod] at h2 ⊢
  omega

lemma incHeight_eq (h : Nat) (hh : h + 1 < uint64Mod) : incHeight h = h + 1 := by
  simp only [incHeight, uint64Mod] at hh ⊢
  omega

lemma foldl_decHeight (l : List Block) (h : Nat) (hl : l.length ≤ h)
    (hh : h < uint64Mod) :
    l.foldl (fun a _ => decHeight a) h = h - l.length := by
  induction l generalizing h with
  | nil => simp
  | cons b bs ih =>
    simp only [List.length_cons] at hl ⊢
    rw [List.foldl_cons, decHeight_eq h (by omega) hh,
      ih (h - 1) (by omega) (by omega)]
    omega

lemma startHeight_eq (cc : ConsensusChange)
    (hR : cc.revertedBlocks.length ≤ cc.initialHeight)
    (hH : cc.initialHeight < uint64Mod) :
    startHeight cc = cc.initialHeight - cc.revertedBlocks.length := by
  unfold startHeight
  exact foldl_decHeight cc.revertedBlocks cc.initialHeight hR hH

lemma processApplied_eq (blocks : List Block) (h0 : Nat)
    (hlt : h0 + blocks.length < uint64Mod) :
    processApplied blocks h0 =
      concatMapAnn (fun p => forEachAnnouncement p.2 (h0 + p.1))
        ((List.range blocks.length).zip blocks) := by
  induction blocks generalizing h0 with
  | nil => simp [processApplied]
  | cons b bs ih =>
    simp only [List.length_cons] at hlt
    have hi : incHeight h0 = h0 + 1 := incHeight_eq h0 (by omega)
    have hrest := ih (h0 + 1) (by omega)
    show forEachAnnouncement b h0 ++ processApplied bs (incHeight h0) = _
    simp only [hi, hrest, List.length_cons, List.range_succ_eq_map, List.zip_cons_cons,
      List.zip_map_left, concatMapAnn_cons, concatMapAnn_map, Nat.add_zero,
      Prod.map_fst, Prod.map_snd, id_eq]
    congr 1
    refine concatMapAnn_congr (fun p => ?_) _
    congr 1
    omega

/-- C1: a flush triggered by `ProcessConsensusChange` commits the buffered
announcements (announcement rows and host upserts) and the checkpoint update
in one atomic transaction: when the transaction fails the persisted database
is exactly the one before the call (no announcement row, no host change, no
checkpoint change), and when it commits the persisted database carries all of
them (`flushTx`, which inserts every buffered announcement, upserts the
corresponding hosts, and advances the checkpoint); no outcome leaves the
checkpoint advanced without the announcements or the announcements without
the checkpoint. -/
theorem processConsensusChange_flush_atomic (now : Int) (commitOk : Bool)
    (s : SQLStore) (cc : ConsensusChange)
    (hflush : s.persistInterval < now - s.lastAnnouncementSave ∨
      announcementBatchSoftLimit ≤ (s.unappliedAnnouncements ++ newAnnouncements cc).length) :
    (commitOk = false → (processConsensusChange now commitOk s cc).db = s.db) ∧
    (commitOk = true → (processConsensusChange now commitOk s cc).db =
      flushTx s.db (s.unappliedAnnouncements ++ newAnnouncements cc) cc.id) := by
  constructor
  · intro hok
    subst hok
    simp only [processConsensusChange]
    rw [if_pos hflush]
    simp
  · intro hok
    subst hok
    simp only [processConsensusChange]
    rw [if_pos hflush]
    simp

/-- Witness for C1 at a concrete flush: the time threshold is crossed and the
committed database equals the full flush of the buffer. -/
theorem processConsensusChange_flush_atomic_witness :
    (exStore.persistInterval < 100 - exStore.lastAnnouncementSave ∨
      announcementBatchSoftLimit ≤ (exStore.unappliedAnnouncements ++ newAnnouncements exCC).length) ∧
    ((true = false → (processConsensusChange 100 true exStore exCC).db = exStore.db) ∧
     (true = true → (processConsensusChange 100 true exStore exCC).db =
       flushTx exStore.db (exStore.unappliedAnnouncements ++ newAnnouncements exCC) exCC.id)) :=
  ⟨by decide, processConsensusChange_flush_atomic 100 true exStore exCC (by decide)⟩

/-- C2: the working height starts at the initial height of the change, is
decremented once per reverted block, and the announcements of the i-th
applied block enter the batch attributed to height
`initialHeight - revertedBlocks.length + i`, the height being incremented
after each applied block. -/
theorem processConsensusChange_height_attribution (cc : ConsensusChange)
    (hR : cc.revertedBlocks.length ≤ cc.initialHeight)
    (hA : cc.initialHeight + cc.appliedBlocks.length < uint64Mod) :
    newAnnouncements cc =
      concatMapAnn (fun p => forEachAnnouncement p.2
        (cc.initialHeight - cc.revertedBlocks.length + p.1))
        ((List.range cc.appliedBlocks.length).zip cc.appliedBlocks) := by
  unfold newAnnouncements
  rw [startHeight_eq cc hR (by omega)]
  exact processApplied_eq _ _ (by omega)

/-- Witness for C2 on a concrete change with one reverted and two applied
blocks starting at height 10: announcements land at heights 9 and 10. -/
theorem processConsensusChange_height_attribution_witness :
    exCC.revertedBlocks.length ≤ exCC.initialHeight ∧
    exCC.initialHeight + exCC.appliedBlocks.length < uint64Mod ∧
    newAnnouncements exCC =
      concatMapAnn (fun p => forEachAnnouncement p.2
        (exCC.initialHeight - exCC.revertedBlocks.length + p.1))
        ((List.range exCC.appliedBlocks.length).zip exCC.appliedBlocks) :=
  ⟨by decide, by decide,
    processConsensusChange_height_attribution exCC (by decide) (by decide)⟩

/-- C3 (exhibit of the defect): at a concrete call whose triggered flush
transaction fails, `ProcessConsensusChange` still truncates the in-memory
buffer: the buffered announcement is discarded rather than retained for retry
(the buffer is empty after the failed call), even though nothing was committed
(the persisted database is unchanged). -/
theorem processConsensusChange_flush_failure_clears_buffer :
    exStore.unappliedAnnouncements ≠ [] ∧
    (processConsensusChange 100 false exStore exCC).unappliedAnnouncements = [] ∧
    (processConsensusChange 100 false exStore exCC).db = exStore.db := by
  decide

lemma processConsensusChange_ccid (now : Int) (ok : Bool) (s : SQLStore)
    (cc : ConsensusChange) :
    (processConsensusChange now ok s cc).unappliedCCID = cc.id := by
  simp only [processConsensusChange]
  split <;> rfl

lemma processConsensusChange_noflush (now : Int) (ok : Bool) (s : SQLStore)
    (cc : ConsensusChange) (h : noFlushCall s (now, ok, cc) = true) :
    processConsensusChange now ok s cc =
      { s with unappliedAnnouncements := s.unappliedAnnouncements ++ newAnnouncements cc,
               unappliedCCID := cc.id } := by
  simp only [noFlushCall, Bool.and_eq_true, decide_eq_true_eq] at h
  obtain ⟨h1, h2⟩ := h
  have hcond : ¬ (s.persistInterval < now - s.lastAnnouncementSave ∨
      announcementBatchSoftLimit ≤ (s.unappliedAnnouncements ++ newAnnouncements cc).length) := by
    push_neg
    exact ⟨by omega, by omega⟩
  simp only [processConsensusChange]
  rw [if_neg hcond]

lemma processSeq_append (s : SQLStore) (l1 l2 : List (Int × Bool × ConsensusChange)) :
    processSeq s (l1 ++ l2) = processSeq (processSeq s l1) l2 := by
  induction l1 generalizing s with
  | nil => rfl
  | cons c cs ih => simp [processSeq, ih]

/-- C4: along any call sequence satisfying the deferred-flush side condition
(each call keeps the elapsed time since the last save strictly below the
persist interval and the buffered count, after appending the announcements of
the call, strictly below the batch soft limit), no database commit occurs:
the persisted database, checkpoint and announcement table included, is
exactly the one from before the sequence, while the in-memory checkpoint
marker equals, after every call, the id of the change just processed. -/
theorem processSeq_no_flush (s : SQLStore) (calls : List (Int × Bool × ConsensusChange))
    (h : noFlushSeq s calls = true) :
    (processSeq s calls).db = s.db ∧
    (∀ p c rest, calls = p ++ c :: rest →
      (processSeq s (p ++ [c])).unappliedCCID = c.2.2.id) := by
  constructor
  · induction calls generalizing s with
    | nil => rfl
    | cons c cs ih =>
      simp only [noFlushSeq, Bool.and_eq_true] at h
      have hstep := processConsensusChange_noflush c.1 c.2.1 s c.2.2 h.1
      show (processSeq (processConsensusChange c.1 c.2.1 s c.2.2) cs).db = s.db
      rw [ih _ h.2, hstep]
  · intro p c rest hcalls
    rw [processSeq_append]
    show (processConsensusChange c.1 c.2.1 (processSeq s p) c.2.2).unappliedCCID = c.2.2.id
    exact processConsensusChange_ccid _ _ _ _

/-- Witness for C4 on a concrete two-call sequence well under both
thresholds: the database is untouched and the marker follows the first call
id. -/
theorem processSeq_no_flush_witness :
    noFlushSeq exStore exCalls = true ∧
    ((processSeq exStore exCalls).db = exStore.db ∧
     (processSeq exStore [(1, true, exCCa)]).unappliedCCID = exCCa.id) :=
  ⟨by decide,
   (processSeq_no_flush exStore exCalls (by decide)).1,
   (processSeq_no_flush exStore exCalls (by decide)).2 [] (1, true, exCCa)
     [(2, true, exCCb)] rfl⟩

lemma record_single_scan_hosts (db : DB) (hostKey : Nat) (i : Interaction)
    (hscan : i.type = interactionTypeScan)
    (hdec : i.success = true → i.result.isSome = true) :
    resultOk (recordHostInteractions db hostKey [i]) = true ∧
    hostsOf (recordHostInteractions db hostKey [i]) =
      db.hosts.map (fun h => applyScanUpdate
        { success := i.success, timestamp := i.timestamp,
          settings := if i.success then i.result.getD 0 else 0 }
        (if h.publicKey == hostKey then
          { h with
            successfulInteractions :=
              h.successfulInteractions + (if i.success then 1 else 0),
            failedInteractions :=
              h.failedInteractions + (if i.success then 0 else 1) }
         else h)) := by
  cases hs : i.success with
  | true =>
    cases hr : i.result with
    | none =>
      have := hdec hs
      rw [hr] at this
      simp at this
    | some stg =>
      refine ⟨?_, ?_⟩ <;>
        simp [recordHostInteractions, buildScanUpdates, scanUpdateOf, hscan, hs, hr,
          hostsOf, resultOk, applyCounterUpdate, List.map_map, Function.comp]
  | false =>
    refine ⟨?_, ?_⟩ <;>
      simp [recordHostInteractions, buildScanUpdates, scanUpdateOf, hscan, hs,
        hostsOf, resultOk, applyCounterUpdate, List.map_map, Function.comp]

/-- C5 (counterexample): `exHost` has a previous scan at instant 10 whose
outcome was a failure (`lastScanSuccess = false`), uptime 5 and downtime 7;
recording a successful scan at instant 14 should, per the claim, add the
elapsed 4 to the downtime accumulator (the previous scan was not successful)
and leave uptime at 5.  The code instead chooses the accumulator by the
current scan's outcome and overwrites it: the row ends with uptime 4 and
downtime 7, so neither predicted value holds. -/
theorem recordScan_attribution_cex :
    (exScanResult.map DbHost.uptime = [4] ∧ exScanResult.map DbHost.downtime = [7]) ∧
    ¬ (exScanResult.map DbHost.uptime = [5] ∧
       exScanResult.map DbHost.downtime = [7 + (14 - 10)]) := by
  decide

/-- C5 (amended): for every scan interaction recorded, each host row's
accumulator chosen by the current scan's outcome (uptime when this scan
succeeded, downtime when it failed) is set to the elapsed time since that
row's previous scan, replacing rather than incrementing its previous value,
while the other accumulator is unchanged; when the row has no previous scan
(`lastScan = 0`) the chosen accumulator is set to 0. -/
theorem recordScan_attribution (db : DB) (hostKey : Nat) (i : Interaction)
    (hscan : i.type = interactionTypeScan)
    (hdec : i.success = true → i.result.isSome = true) :
    resultOk (recordHostInteractions db hostKey [i]) = true ∧
    List.Forall₂ (fun h h2 =>
      (i.success = true →
        h2.uptime = (if h.lastScan = 0 then 0 else i.timestamp - h.lastScan) ∧
        h2.downtime = h.downtime) ∧
      (i.success = false →
        h2.downtime = (if h.lastScan = 0 then 0 else i.timestamp - h.lastScan) ∧
        h2.uptime = h.uptime))
      db.hosts (hostsOf (recordHostInteractions db hostKey [i])) := by
  obtain ⟨hok, hhosts⟩ := record_single_scan_hosts db hostKey i hscan hdec
  refine ⟨hok, ?_⟩
  rw [hhosts, List.forall₂_map_right_iff, List.forall₂_same]
  intro h hmem
  by_cases hk : h.publicKey == hostKey <;>
    cases hs : i.success <;>
    by_cases hz : h.lastScan = 0 <;>
    simp [applyScanUpdate, hk, hs, hz]

/-- Witness for the amended C5: the successful scan `exScan` over `exDB1`. -/
theorem recordScan_attribution_witness :
    exScan.type = interactionTypeScan ∧
    (exScan.success = true → exScan.result.isSome = true) ∧
    (resultOk (recordHostInteractions exDB1 1 [exScan]) = true ∧
     List.Forall₂ (fun h h2 =>
       (exScan.success = true →
         h2.uptime = (if h.lastScan = 0 then 0 else exScan.timestamp - h.lastScan) ∧
         h2.downtime = h.downtime) ∧
       (exScan.success = false →
         h2.downtime = (if h.lastScan = 0 then 0 else exScan.timestamp - h.lastScan) ∧
         h2.uptime = h.uptime))
       exDB1.hosts (hostsOf (recordHostInteractions exDB1 1 [exScan]))) :=
  ⟨rfl, by decide, recordScan_attribution exDB1 1 exScan rfl (by decide)⟩

/-- C6: recording a scan for a host row with no prior scan
(`lastScan = 0`, accumulators and scan count still zero) leaves uptime and
downtime unchanged at zero and sets the total scan count to 1; on every row
the last-scan-success flag becomes the scan's outcome and the previous
last-scan-success value is shifted into second-to-last-scan-success. -/
theorem recordFirstScan (db : DB) (hostKey : Nat) (i : Interaction)
    (hscan : i.type = interactionTypeScan)
    (hdec : i.success = true → i.result.isSome = true) :
    resultOk (recordHostInteractions db hostKey [i]) = true ∧
    List.Forall₂ (fun h h2 =>
      (h.lastScan = 0 ∧ h.uptime = 0 ∧ h.downtime = 0 ∧ h.totalScans = 0 →
        h2.uptime = 0 ∧ h2.downtime = 0 ∧ h2.totalScans = 1) ∧
      h2.lastScanSuccess = i.success ∧
      h2.secondToLastScanSuccess = h.lastScanSuccess)
      db.hosts (hostsOf (recordHostInteractions db hostKey [i])) := by
  obtain ⟨hok, hhosts⟩ := record_single_scan_hosts db hostKey i hscan hdec
  refine ⟨hok, ?_⟩
  rw [hhosts, List.forall₂_map_right_iff, List.forall₂_same]
  intro h hmem
  by_cases hk : h.publicKey == hostKey <;>
    cases hs : i.success <;>
    simp [applyScanUpdate, hk, hs] <;>
    intro hz hu hd ht <;>
    simp [hz, hu, hd, ht]

/-- Witness for C6: a first (failed) scan for the never-scanned host
`exFreshHost`. -/
theorem recordFirstScan_witness :
    exScanFail.type = interactionTypeScan ∧
    (exScanFail.success = true → exScanFail.result.isSome = true) ∧
    (resultOk (recordHostInteractions exDB2 5 [exScanFail]) = true ∧
     List.Forall₂ (fun h h2 =>
       (h.lastScan = 0 ∧ h.uptime = 0 ∧ h.downtime = 0 ∧ h.totalScans = 0 →
         h2.uptime = 0 ∧ h2.downtime = 0 ∧ h2.totalScans = 1) ∧
       h2.lastScanSuccess = exScanFail.success ∧
       h2.secondToLastScanSuccess = h.lastScanSuccess)
       exDB2.hosts (hostsOf (recordHostInteractions exDB2 5 [exScanFail]))) :=
  ⟨rfl, by decide, recordFirstScan exDB2 5 exScanFail rfl (by decide)⟩

/-- C7: the scan UPDATE built by `RecordHostInteractions` carries no WHERE
clause naming the host key, so recording a scan for one host mutates the scan
fields (total scans, scan-success flags, last scan, settings, the chosen
accumulator) of every row of the hosts table, whatever its public key; only
the successful/failed interaction counters are restricted to rows matching
the named host key. -/
theorem recordScan_no_host_filter (db : DB) (hostKey : Nat) (i : Interaction)
    (hscan : i.type = interactionTypeScan)
    (hdec : i.success = true → i.result.isSome = true) :
    resultOk (recordHostInteractions db hostKey [i]) = true ∧
    List.Forall₂ (fun h h2 =>
      h2.totalScans = h.totalScans + 1 ∧
      h2.secondToLastScanSuccess = h.lastScanSuccess ∧
      h2.lastScanSuccess = i.success ∧
      h2.lastScan = i.timestamp ∧
      h2.settings = (if i.success then i.result.getD 0 else 0) ∧
      (h.publicKey ≠ hostKey →
        h2.successfulInteractions = h.successfulInteractions ∧
        h2.failedInteractions = h.failedInteractions))
      db.hosts (hostsOf (recordHostInteractions db hostKey [i])) := by
  obtain ⟨hok, hhosts⟩ := record_single_scan_hosts db hostKey i hscan hdec
  refine ⟨hok, ?_⟩
  rw [hhosts, List.forall₂_map_right_iff, List.forall₂_same]
  intro h hmem
  by_cases hk : h.publicKey == hostKey <;>
    cases hs : i.success <;>
    simp [applyScanUpdate, hk, hs]
  · exact eq_of_beq hk
  · exact eq_of_beq hk

/-- Witness for C7: recording `exScan` for host key 1 against the two-host
table `exDB2` also bumps the scan fields of the unrelated host with key 5. -/
theorem recordScan_no_host_filter_witness :
    exScan.type = interactionTypeScan ∧
    (exScan.success = true → exScan.result.isSome = true) ∧
    (resultOk (recordHostInteractions exDB2 1 [exScan]) = true ∧
     List.Forall₂ (fun h h2 =>
       h2.totalScans = h.totalScans + 1 ∧
       h2.secondToLastScanSuccess = h.lastScanSuccess ∧
       h2.lastScanSuccess = exScan.success ∧
       h2.lastScan = exScan.timestamp ∧
       h2.settings = (if exScan.success then exScan.result.getD 0 else 0) ∧
       (h.publicKey ≠ 1 →
         h2.successfulInteractions = h.successfulInteractions ∧
         h2.failedInteractions = h.failedInteractions))
       exDB2.hosts (hostsOf (recordHostInteractions exDB2 1 [exScan]))) :=
  ⟨rfl, by decide, recordScan_no_host_filter exDB2 1 exScan rfl (by decide)⟩

/-- C8: flushing an announcement appends its announcement-log row and upserts
the host: when no host with the announced public key exists, the host row is
created (every column beyond key, last announcement and address being the
zero value); when hosts with that key exist, only their last-announcement
timestamp and net address change — every other field of the matching rows,
and every field of the non-matching rows, is unchanged by the upsert. -/
theorem insertAnnouncements_upsert (db : DB) (a : Announcement) :
    (insertAnnouncements db [a]).announcements =
      db.announcements ++ [(⟨a.hostKey, a.indexHeight, a.indexID, a.netAddress⟩ : DbAnnouncement)] ∧
    ((∀ h ∈ db.hosts, h.publicKey ≠ a.hostKey) →
      (insertAnnouncements db [a]).hosts = db.hosts ++ [hostFromAnnouncement a]) ∧
    ((∃ h ∈ db.hosts, h.publicKey = a.hostKey) →
      List.Forall₂ (fun h h2 =>
        (h.publicKey = a.hostKey →
          h2.lastAnnouncement = a.timestamp ∧ h2.netAddress = a.netAddress ∧
          h2.publicKey = h.publicKey ∧ h2.settings = h.settings ∧
          h2.totalScans = h.totalScans ∧ h2.lastScan = h.lastScan ∧
          h2.lastScanSuccess = h.lastScanSuccess ∧
          h2.secondToLastScanSuccess = h.secondToLastScanSuccess ∧
          h2.uptime = h.uptime ∧ h2.downtime = h.downtime ∧
          h2.successfulInteractions = h.successfulInteractions ∧
          h2.failedInteractions = h.failedInteractions) ∧
        (h.publicKey ≠ a.hostKey → h2 = h))
        db.hosts (insertAnnouncements db [a]).hosts) := by
  have hh : (insertAnnouncements db [a]).hosts = upsertHostFromAnnouncement db.hosts a := rfl
  refine ⟨rfl, ?_, ?_⟩
  · intro hnone
    have hany : db.hosts.any (fun h => h.publicKey == a.hostKey) = false := by
      simp only [List.any_eq_false, beq_iff_eq]
      exact hnone
    rw [hh]
    simp [upsertHostFromAnnouncement, hany]
  · intro hex
    have hany : db.hosts.any (fun h => h.publicKey == a.hostKey) = true := by
      obtain ⟨h, hmem, hkey⟩ := hex
      simp only [List.any_eq_true, beq_iff_eq]
      exact ⟨h, hmem, hkey⟩
    rw [hh]
    simp only [upsertHostFromAnnouncement, hany, if_true]
    rw [List.forall₂_map_right_iff, List.forall₂_same]
    intro h hmem
    by_cases hk : h.publicKey == a.hostKey
    · have hkey := eq_of_beq hk
      simp [hk, hkey]
    · have hkey : h.publicKey ≠ a.hostKey := by simpa using hk
      simp [hk, hkey]

/-- Witness for C8: upserting an announcement for the existing host key 1
against `exDB1`, and creating a host from the same announcement against the
empty database. -/
theorem insertAnnouncements_upsert_witness :
    (insertAnnouncements emptyDB [exAnn]).hosts = emptyDB.hosts ++ [hostFromAnnouncement exAnn] ∧
    List.Forall₂ (fun h h2 =>
      (h.publicKey = exAnn.hostKey →
        h2.lastAnnouncement = exAnn.timestamp ∧ h2.netAddress = exAnn.netAddress ∧
        h2.publicKey = h.publicKey ∧ h2.settings = h.settings ∧
        h2.totalScans = h.totalScans ∧ h2.lastScan = h.lastScan ∧
        h2.lastScanSuccess = h.lastScanSuccess ∧
        h2.secondToLastScanSuccess = h.secondToLastScanSuccess ∧
        h2.uptime = h.uptime ∧ h2.downtime = h.downtime ∧
        h2.successfulInteractions = h.successfulInteractions ∧
        h2.failedInteractions = h.failedInteractions) ∧
      (h.publicKey ≠ exAnn.hostKey → h2 = h))
      exDB1.hosts (insertAnnouncements exDB1 [exAnn]).hosts :=
  ⟨(insertAnnouncements_upsert emptyDB exAnn).2.1 (by decide),
   (insertAnnouncements_upsert exDB1 exAnn).2.2 ⟨exHost, by decide, by decide⟩⟩

/-- C9 (counterexample): with a table whose only host was last scanned at
instant 20, `Hosts` called with notScannedSince = 10 still returns that
host: hosts scanned more recently than the given time are not excluded, so
the claimed filter does not hold. -/
theorem hosts_not_scanned_since_cex :
    ¬ (∀ h2 ∈ Hosts exDB9 10 5, h2.lastScan ≤ 10) := by
  decide

/-- C9 (amended): `Hosts` returns at most max hosts, each the conversion of a
row of the hosts table, and ignores the notScannedSince parameter entirely
(the result is the same for any value of it); no ordering guarantee and no
filtering by last-scan recency is provided. -/
theorem hosts_no_scan_filter (db : DB) (notSince notSince2 : Int) (max : Nat) :
    (Hosts db notSince max).length ≤ max ∧
    Hosts db notSince max ⊆ db.hosts.map convertHost ∧
    Hosts db notSince max = Hosts db notSince2 max := by
  refine ⟨?_, ?_, rfl⟩
  · simp only [Hosts, List.length_map, List.length_take]
    omega
  · exact List.map_subset convertHost (List.take_subset max db.hosts)

/-- C10: `UpdateAutopilot` with an empty identifier, or with a configuration
failing validation, returns an error before any write is attempted, leaving
the database exactly as it was; with a non-empty identifier and a valid
configuration it succeeds and upserts the autopilot row keyed by that
identifier. -/
theorem updateAutopilot_validation (db : DB) (ap : Autopilot) :
    ((ap.id = "" ∨ ap.config.valid = false) →
      (updateAutopilotStore db ap).1.isSome = true ∧
      (updateAutopilotStore db ap).2 = db) ∧
    (ap.id ≠ "" → ap.config.valid = true →
      (updateAutopilotStore db ap).1 = none ∧
      (updateAutopilotStore db ap).2.autopilots =
        upsertAutopilotRow db.autopilots
          { identifier := ap.id, config := ap.config.blob,
            currentPeriod := ap.currentPeriod }) := by
  constructor
  · rintro (hid | hval)
    · simp [updateAutopilotStore, UpdateAutopilot, hid]
    · by_cases hid : ap.id = "" <;>
        simp [updateAutopilotStore, UpdateAutopilot, AutopilotConfig.validate, hid, hval]
  · intro hid hval
    simp [updateAutopilotStore, UpdateAutopilot, AutopilotConfig.validate, hid, hval]

/-- Witness for C10: the empty identifier and the invalid configuration are
rejected with the database untouched, while the valid update is accepted and
upserts its row. -/
theorem updateAutopilot_validation_witness :
    ((updateAutopilotStore emptyDB exApEmptyID).1.isSome = true ∧
     (updateAutopilotStore emptyDB exApEmptyID).2 = emptyDB) ∧
    ((updateAutopilotStore emptyDB exApInvalid).1.isSome = true ∧
     (updateAutopilotStore emptyDB exApInvalid).2 = emptyDB) ∧
    ((updateAutopilotStore emptyDB exApValid).1 = none ∧
     (updateAutopilotStore emptyDB exApValid).2.autopilots =
       upsertAutopilotRow emptyDB.autopilots
         { identifier := exApValid.id, config := exApValid.config.blob,
           currentPeriod := exApValid.currentPeriod }) :=
  ⟨(updateAutopilot_validation emptyDB exApEmptyID).1 (Or.inl rfl),
   (updateAutopilot_validation emptyDB exApInvalid).1 (Or.inr rfl),
   (updateAutopilot_validation emptyDB exApValid).2 (by decide) rfl⟩

end Renterd
